import Mathlib

/-!
Verification of the `fastapi-mock-datetime` middleware
(`src/fastapi_mock_datetime/middleware.py`) against its specification.

The development shallowly embeds the middleware `mock_datetime_middleware`:

* `PyDatetime` models a Python `datetime.datetime` value (proleptic Gregorian
  calendar fields plus an optional fixed UTC offset in seconds, modelling
  `tzinfo = timezone(timedelta(seconds = off))`; `tzinfo = none` is a naive
  datetime).
* `fromisoformat` models `datetime.fromisoformat` (CPython >= 3.11) on the
  dashed-date grammar `YYYY-MM-DD[<any single separator char>HH[:MM[:SS[.|,frac]]][Z|+-HH[:MM[:SS]]]]`,
  with full calendar and range validation.  (CPython additionally accepts
  separator-free compact forms and ISO week dates; no claim depends on those,
  and every input rejected here is handled by the same 422 branch.)
* `Travel` models one `time_machine.travel(dest, tick)` activation; the active
  override is the head of a stack of travels, and `nowEpochMicros` gives the
  value observed by `datetime.now(timezone.utc)` at a real instant.
* `mock_datetime_middleware` is the middleware: the continuation `call_next`
  receives the (unmodified) request headers and the override stack in effect
  while it runs, and either returns a response or raises an exception (`Exn`),
  mirroring Python control flow with `Except`.  The `try ... except ValueError`
  of the source wraps both the parse and the continuation call; this is
  modelled faithfully by `catchValueError`.
* The clock-override side effects are recorded as a `ClockOp` trace so that
  acquisition/release of the `time_machine` context manager on every exit path
  is visible in the model.
-/

namespace FastapiMockDatetime

/-- A Python `datetime.datetime`: calendar fields plus `tzinfo`, modelled as
the fixed UTC offset in seconds when aware, `none` when naive. -/
structure PyDatetime where
  year : Nat
  month : Nat
  day : Nat
  hour : Nat
  minute : Nat
  second : Nat
  microsecond : Nat
  tzinfo : Option Int
deriving DecidableEq, Repr

/-- Gregorian leap-year test. -/
def isLeap (y : Nat) : Bool :=
  (y % 4 == 0 && y % 100 != 0) || (y % 400 == 0)

/-- Number of days in month `m` of year `y`. -/
def daysInMonth (y m : Nat) : Nat :=
  if m == 2 then (if isLeap y then 29 else 28)
  else if m == 4 || m == 6 || m == 9 || m == 11 then 30
  else 31

/-- Days since the epoch 1970-01-01 of a civil date (proleptic Gregorian). -/
def daysFromCivil (y m d : Int) : Int :=
  let y := if m ≤ 2 then y - 1 else y
  let era := (if 0 ≤ y then y else y - 399) / 400
  let yoe := y - era * 400
  let doy := (153 * (m + (if 2 < m then -3 else 9)) + 2) / 5 + d - 1
  let doe := yoe * 365 + yoe / 4 - yoe / 100 + doy
  era * 146097 + doe - 719468

/-- Civil date `(y, m, d)` of a count of days since the epoch 1970-01-01. -/
def civilFromDays (z : Int) : Int × Int × Int :=
  let z := z + 719468
  let era := (if 0 ≤ z then z else z - 146096) / 146097
  let doe := z - era * 146097
  let yoe := (doe - doe / 1460 + doe / 36524 - doe / 146096) / 365
  let y := yoe + era * 400
  let doy := doe - (365 * yoe + yoe / 4 - yoe / 100)
  let mp := (5 * doy + 2) / 153
  let d := doy - (153 * mp + 2) / 5 + 1
  let m := mp + (if mp < 10 then 3 else -9)
  (y + (if m ≤ 2 then 1 else 0), m, d)

/-- Microseconds since the Unix epoch of a datetime, interpreting a naive
datetime as UTC (as `datetime.timestamp` would only for aware values; the
middleware only ever reaches this with aware values). -/
def toEpochMicros (dt : PyDatetime) : Int :=
  daysFromCivil dt.year dt.month dt.day * 86400000000
    + ((dt.hour : Int) * 3600 + dt.minute * 60 + dt.second) * 1000000
    + dt.microsecond
    - dt.tzinfo.getD 0 * 1000000

/-- The aware UTC datetime at a given count of microseconds since the epoch:
models `datetime.fromtimestamp(t, timezone.utc)`. -/
def fromEpochMicrosUTC (t : Int) : PyDatetime :=
  let days := Int.fdiv t 86400000000
  let r := (Int.fmod t 86400000000).toNat
  let c := civilFromDays days
  { year := c.1.toNat
    month := c.2.1.toNat
    day := c.2.2.toNat
    hour := r / 3600000000
    minute := r / 60000000 % 60
    second := r / 1000000 % 60
    microsecond := r % 1000000
    tzinfo := some 0 }

/-- The UTC normalisation of an (aware) datetime: the same instant with a zero
offset, as observed through `datetime.now(timezone.utc)`. -/
def utcOf (dt : PyDatetime) : PyDatetime :=
  fromEpochMicrosUTC (toEpochMicros dt)

/-- Left-pad the decimal representation of `n` with zeros to width `w`. -/
def padZeros (w n : Nat) : String :=
  let s := toString n
  if s.length < w then String.mk (List.replicate (w - s.length) '0') ++ s else s

/-- The `isoformat` rendering of a fixed UTC offset (`""` when naive). -/
def offsetSuffix : Option Int → String
  | none => ""
  | some off =>
    let sign := if off < 0 then "-" else "+"
    let a := off.natAbs
    sign ++ padZeros 2 (a / 3600) ++ ":" ++ padZeros 2 (a / 60 % 60)
      ++ (if a % 60 == 0 then "" else ":" ++ padZeros 2 (a % 60))

/-- Models `datetime.isoformat()`. -/
def isoformat (dt : PyDatetime) : String :=
  padZeros 4 dt.year ++ "-" ++ padZeros 2 dt.month ++ "-" ++ padZeros 2 dt.day
    ++ "T" ++ padZeros 2 dt.hour ++ ":" ++ padZeros 2 dt.minute ++ ":" ++ padZeros 2 dt.second
    ++ (if dt.microsecond == 0 then "" else "." ++ padZeros 6 dt.microsecond)
    ++ offsetSuffix dt.tzinfo

/-- The numeric value of an ASCII digit, `none` otherwise. -/
def digitVal (c : Char) : Option Nat :=
  if '0' ≤ c ∧ c ≤ '9' then some (c.toNat - 48) else none

/-- Read exactly two ASCII digits from the front of `cs`. -/
def read2 : List Char → Option (Nat × List Char)
  | a :: b :: rest => do
    let x ← digitVal a
    let y ← digitVal b
    pure (10 * x + y, rest)
  | _ => none

/-- Read exactly four ASCII digits from the front of `cs`. -/
def read4 : List Char → Option (Nat × List Char)
  | a :: b :: rest => do
    let x ← digitVal a
    let y ← digitVal b
    let z ← read2 rest
    pure (1000 * x + 100 * y + z.1, z.2)
  | _ => none

/-- Parse the leading `YYYY-MM-DD` date component (digits only; calendar
validity is checked by the caller). -/
def parseDate (cs : List Char) : Option (Nat × Nat × Nat × List Char) := do
  let (y, r1) ← read4 cs
  match r1 with
  | '-' :: r2 =>
    let (mo, r3) ← read2 r2
    match r3 with
    | '-' :: r4 =>
      let (d, r5) ← read2 r4
      pure (y, mo, d, r5)
    | _ => none
  | _ => none

/-- Microseconds denoted by a fractional-seconds digit string (CPython keeps
the first six digits). -/
def microOfFrac (frac : List Char) : Nat :=
  let ds := (frac.take 6).map fun c => c.toNat - 48
  ds.foldl (fun a d => 10 * a + d) 0 * 10 ^ (6 - ds.length)

/-- Parse the time-of-day component `HH[:MM[:SS[.frac|,frac]]]`, returning
`(hour, minute, second, microsecond, rest)`. -/
def parseTimeOfDay (cs : List Char) : Option (Nat × Nat × Nat × Nat × List Char) := do
  let (h, r1) ← read2 cs
  match r1 with
  | ':' :: r2 =>
    let (mi, r3) ← read2 r2
    match r3 with
    | ':' :: r4 =>
      let (s, r5) ← read2 r4
      match r5 with
      | c :: r6 =>
        if c = '.' ∨ c = ',' then
          let frac := r6.takeWhile Char.isDigit
          if frac.isEmpty then none
          else pure (h, mi, s, microOfFrac frac, r6.dropWhile Char.isDigit)
        else pure (h, mi, s, 0, r5)
      | [] => pure (h, mi, s, 0, [])
    | _ => pure (h, mi, 0, 0, r3)
  | _ => pure (h, 0, 0, 0, r1)

/-- Parse the optional UTC-offset suffix `Z`, `+HH`, `+HH:MM` or `+HH:MM:SS`
(and `-` likewise), returning the offset in seconds. -/
def parseOffset (cs : List Char) : Option (Option Int × List Char) :=
  match cs with
  | [] => some (none, [])
  | 'Z' :: r => some (some 0, r)
  | c :: r =>
    if c = '+' ∨ c = '-' then do
      let (oh, r1) ← read2 r
      let (om, os, r4) ←
        match r1 with
        | ':' :: r2 => do
          let (om, r3) ← read2 r2
          match r3 with
          | ':' :: r3a => do
            let (os, r3b) ← read2 r3a
            pure (om, os, r3b)
          | _ => pure (om, 0, r3)
        | _ => pure (0, 0, r1)
      if oh ≤ 23 ∧ om ≤ 59 ∧ os ≤ 59 then
        let total : Int := (oh : Int) * 3600 + om * 60 + os
        pure (some (if c = '-' then -total else total), r4)
      else none
    else none

/-- Models `datetime.fromisoformat` (CPython >= 3.11) on the dashed-date
grammar: `YYYY-MM-DD`, optionally followed by any single separator character
and a time of day with optional fractional seconds and optional UTC offset.
Returns `none` exactly where CPython raises `ValueError` on this grammar
(bad digits, trailing characters, year 0, invalid calendar date, out-of-range
time or offset fields). -/
def fromisoformat (s : String) : Option PyDatetime := do
  let (y, mo, d, rest) ← parseDate s.data
  if 1 ≤ y ∧ 1 ≤ mo ∧ mo ≤ 12 ∧ 1 ≤ d ∧ d ≤ daysInMonth y mo then
    match rest with
    | [] => pure ⟨y, mo, d, 0, 0, 0, 0, none⟩
    | _sep :: tcs => do
      let (h, mi, sec, us, r1) ← parseTimeOfDay tcs
      if h ≤ 23 ∧ mi ≤ 59 ∧ sec ≤ 59 then do
        let (tz, r2) ← parseOffset r1
        if r2 = [] then pure ⟨y, mo, d, h, mi, sec, us, tz⟩ else none
      else none
  else none

/-- Lower-case an ASCII letter, as Starlette does byte-wise on header names. -/
def asciiLower (c : Char) : Char :=
  if 'A' ≤ c ∧ c ≤ 'Z' then Char.ofNat (c.toNat + 32) else c

/-- ASCII lower-casing of a header name. -/
def lowerName (s : String) : String :=
  ⟨s.data.map asciiLower⟩

/-- The request headers visible to the middleware, as sent (name, value)
pairs. -/
abbrev Headers := List (String × String)

/-- `request.headers.get(key)`: Starlette header lookup is case-insensitive
(names are compared after ASCII lower-casing). -/
def headerGet : Headers → String → Option String
  | [], _ => none
  | p :: rest, key =>
    if lowerName p.1 = lowerName key then some p.2 else headerGet rest key

/-- The header name the middleware reads. -/
def xMockDate : String := "X-Mock-Date"

/-- A Python exception crossing the middleware boundary: `ValueError` is the
class the middleware's `except` clause names; every other exception class is
collapsed into `other` (with an arbitrary tag to keep distinct exceptions
distinct). -/
inductive Exn where
  | valueError
  | other (tag : Nat)
deriving DecidableEq, Repr

/-- JSON values, with object fields as an ordered list so that key order is
part of the value (the spec requires exact field order). -/
inductive Json where
  | str (s : String)
  | num (n : Int)
  | arr (elems : List Json)
  | obj (fields : List (String × Json))
deriving Repr

/-- An HTTP response: status code and JSON body (`JSONResponse` and the
test app's endpoint responses are both JSON). -/
structure Response where
  status : Nat
  body : Json
deriving Repr

/-- One `time_machine.travel(dest, tick)` activation. The middleware always
passes `tick := false`. -/
structure Travel where
  dest : PyDatetime
  tick : Bool
deriving Repr

/-- The value observed by `datetime.now(timezone.utc)` under an override
stack: `startReal`/`realNow` are real epoch-microsecond instants (when the
innermost travel began, and when the read happens).  With no override the
real clock is seen; under `tick := false` the destination is frozen; under
`tick := true` the destination advances with real elapsed time. -/
def nowEpochMicros (stack : List Travel) (startReal realNow : Int) : Int :=
  match stack with
  | [] => realNow
  | t :: _ => toEpochMicros t.dest + (if t.tick then realNow - startReal else 0)

/-- The aware UTC datetime observed by `datetime.now(timezone.utc)` under an
override stack. -/
def nowUTC (stack : List Travel) (startReal realNow : Int) : PyDatetime :=
  fromEpochMicrosUTC (nowEpochMicros stack startReal realNow)

/-- A continuation (`call_next`): it receives the request (its headers,
unmodified) and the override stack in effect while it runs, and either
returns a response or raises. -/
abbrev Cont := Headers → List Travel → Except Exn Response

/-- Clock-override side effects, recorded as a trace: entering and leaving a
`time_machine.travel` context. -/
inductive ClockOp where
  | push (t : Travel)
  | pop
deriving Repr

/-- The effect of one clock operation on the ambient override stack. -/
def applyOp (stack : List Travel) : ClockOp → List Travel
  | .push t => t :: stack
  | .pop => stack.tail

/-- The outcome of one middleware invocation: the returned response (or
propagated exception), the clock operations performed, and whether the
continuation was invoked. -/
structure MWOut where
  result : Except Exn Response
  clockOps : List ClockOp
  contInvoked : Bool
deriving Repr

/-- The 422 body built by the middleware, with the original unparsed header
string echoed in `input`. -/
def errorBody (input : String) : Json :=
  .obj [("detail", .arr [.obj
    [("type", .str "value_error"),
     ("loc", .arr [.str "header", .str "x-mock-date"]),
     ("msg", .str "Invalid datetime format. Use ISO format: YYYY-MM-DDTHH:MM:SS[±HH:MM]"),
     ("input", .str input)]])]

/-- `mock_time.replace(tzinfo=timezone.utc)` applied when the parsed value is
naive, as the middleware does before travelling. -/
def ensureUTCAware (dt : PyDatetime) : PyDatetime :=
  if dt.tzinfo.isNone then { dt with tzinfo := some 0 } else dt

/-- The `except ValueError` clause of the middleware: it converts a
`ValueError` escaping the `try` body — including one raised by `call_next`
inside the `with` block — into the 422 response; any other outcome passes
through. -/
def catchValueError (input : String) : Except Exn Response → Except Exn Response
  | .error .valueError => .ok ⟨422, errorBody input⟩
  | r => r

/-- The middleware `mock_datetime_middleware(request, call_next)` of
`src/fastapi_mock_datetime/middleware.py`, run against an ambient override
stack `st`:

* header absent or equal to `""` (`if not mock_time_header`): pass through;
* header unparsable (`datetime.fromisoformat` raises `ValueError`): return
  the 422 response without invoking the continuation;
* header parsable: make the value aware (UTC if naive), enter
  `time_machine.travel(mock_time, tick=False)`, invoke the continuation, and
  leave the travel context on both the normal and the raising path; the
  surrounding `try ... except ValueError` also applies to the continuation's
  outcome. -/
def mock_datetime_middleware (hs : Headers) (call_next : Cont) (st : List Travel) : MWOut :=
  match headerGet hs xMockDate with
  | none => ⟨call_next hs st, [], true⟩
  | some mock_time_header =>
    if mock_time_header = "" then ⟨call_next hs st, [], true⟩
    else
      match fromisoformat mock_time_header with
      | none => ⟨.ok ⟨422, errorBody mock_time_header⟩, [], false⟩
      | some dt =>
        let mock_time := ensureUTCAware dt
        ⟨catchValueError mock_time_header (call_next hs (⟨mock_time, false⟩ :: st)),
         [.push ⟨mock_time, false⟩, .pop], true⟩

/-- The test app's root endpoint as a continuation: it reads
`datetime.now(timezone.utc)` once (at real instant `realNow`, the innermost
travel having begun at `startReal`) and returns its `isoformat` string. -/
def echoNowCont (startReal realNow : Int) : Cont :=
  fun _ stack => .ok ⟨200, .obj [("current_time", .str (isoformat (nowUTC stack startReal realNow)))]⟩

/-! ### Branch lemmas for the middleware -/

theorem mw_eq_of_header_none (hs : Headers) (cont : Cont) (st : List Travel)
    (h : headerGet hs xMockDate = none) :
    mock_datetime_middleware hs cont st = ⟨cont hs st, [], true⟩ := by
  unfold mock_datetime_middleware
  rw [h]

theorem mw_eq_of_header_empty (hs : Headers) (cont : Cont) (st : List Travel)
    (h : headerGet hs xMockDate = some "") :
    mock_datetime_middleware hs cont st = ⟨cont hs st, [], true⟩ := by
  unfold mock_datetime_middleware
  rw [h]
  rfl

theorem mw_eq_of_parse_fail (hs : Headers) (s : String) (cont : Cont) (st : List Travel)
    (hget : headerGet hs xMockDate = some s) (hne : s ≠ "")
    (hp : fromisoformat s = none) :
    mock_datetime_middleware hs cont st = ⟨.ok ⟨422, errorBody s⟩, [], false⟩ := by
  unfold mock_datetime_middleware
  rw [hget]
  simp only [if_neg hne, hp]

theorem mw_eq_of_parse_ok (hs : Headers) (s : String) (dt : PyDatetime) (cont : Cont)
    (st : List Travel)
    (hget : headerGet hs xMockDate = some s) (hne : s ≠ "")
    (hp : fromisoformat s = some dt) :
    mock_datetime_middleware hs cont st =
      ⟨catchValueError s (cont hs (⟨ensureUTCAware dt, false⟩ :: st)),
       [.push ⟨ensureUTCAware dt, false⟩, .pop], true⟩ := by
  unfold mock_datetime_middleware
  rw [hget]
  simp only [if_neg hne, hp]

theorem headerGet_congr_of_case_eq (hs hs' : Headers) (k : String)
    (hcase : List.Forall₂ (fun p q => lowerName p.1 = lowerName q.1 ∧ p.2 = q.2) hs hs') :
    headerGet hs k = headerGet hs' k := by
  induction hcase with
  | nil => rfl
  | cons hpq _ ih =>
    obtain ⟨h1, h2⟩ := hpq
    simp only [headerGet, h1, h2, ih]

/-! ### The claims -/

/-- C1: for every request whose `X-Mock-Date` header parses as an ISO-8601
datetime, every read of the current time during the continuation yields
exactly the (UTC-normalised) parsed instant with no forward ticking — two
reads at different real instants are identical — and an endpoint returning
`now().isoformat()` returns exactly the UTC-normalised header instant. -/
theorem mw_valid_header_freezes_now (hs : Headers) (s : String) (dt : PyDatetime)
    (st : List Travel) (startReal realNow r1 r2 : Int)
    (hget : headerGet hs xMockDate = some s) (hne : s ≠ "")
    (hp : fromisoformat s = some dt) :
    (mock_datetime_middleware hs (echoNowCont startReal realNow) st).result
      = .ok ⟨200, .obj [("current_time", .str (isoformat (utcOf (ensureUTCAware dt))))]⟩
    ∧ nowEpochMicros (⟨ensureUTCAware dt, false⟩ :: st) startReal r1
        = nowEpochMicros (⟨ensureUTCAware dt, false⟩ :: st) startReal r2 := by
  constructor
  · rw [mw_eq_of_parse_ok hs s dt _ st hget hne hp]
    simp [catchValueError, echoNowCont, nowUTC, nowEpochMicros, utcOf]
  · simp [nowEpochMicros]

/-- Witness for C1 at header `"2023-10-05T12:00:00+00:00"`: reads at real
instants 3 and 999 agree, and the echoed string is exactly the header. -/
theorem mw_valid_header_freezes_now_witness :
    (mock_datetime_middleware [("X-Mock-Date", "2023-10-05T12:00:00+00:00")]
        (echoNowCont 0 555) []).result
      = .ok ⟨200, .obj [("current_time", .str "2023-10-05T12:00:00+00:00")]⟩
    ∧ nowEpochMicros [⟨⟨2023, 10, 5, 12, 0, 0, 0, some 0⟩, false⟩] 0 3
        = nowEpochMicros [⟨⟨2023, 10, 5, 12, 0, 0, 0, some 0⟩, false⟩] 0 999 := by
  have h := mw_valid_header_freezes_now [("X-Mock-Date", "2023-10-05T12:00:00+00:00")]
    "2023-10-05T12:00:00+00:00" ⟨2023, 10, 5, 12, 0, 0, 0, some 0⟩ [] 0 555 3 999
    rfl (by decide) rfl
  exact ⟨h.1.trans rfl, h.2⟩

/-- C2: for every request whose `X-Mock-Date` header is present, non-empty
and unparsable, the middleware never invokes the continuation, performs no
clock operation, and returns a 422 response whose JSON body is exactly the
`detail` structure of §6 with the original header string in `input`, keys
and field order matching exactly. -/
theorem mw_unparsable_header_422_exact (hs : Headers) (s : String) (cont : Cont)
    (st : List Travel)
    (hget : headerGet hs xMockDate = some s) (hne : s ≠ "")
    (hp : fromisoformat s = none) :
    mock_datetime_middleware hs cont st =
      ⟨.ok ⟨422, Json.obj [("detail", Json.arr [Json.obj
          [("type", Json.str "value_error"),
           ("loc", Json.arr [Json.str "header", Json.str "x-mock-date"]),
           ("msg", Json.str "Invalid datetime format. Use ISO format: YYYY-MM-DDTHH:MM:SS[±HH:MM]"),
           ("input", Json.str s)]])]⟩, [], false⟩ :=
  mw_eq_of_parse_fail hs s cont st hget hne hp

/-- Witness for C2 at header `"invalid-date-format"`. -/
theorem mw_unparsable_header_422_exact_witness :
    mock_datetime_middleware [("X-Mock-Date", "invalid-date-format")] (echoNowCont 0 7) [] =
      ⟨.ok ⟨422, Json.obj [("detail", Json.arr [Json.obj
          [("type", Json.str "value_error"),
           ("loc", Json.arr [Json.str "header", Json.str "x-mock-date"]),
           ("msg", Json.str "Invalid datetime format. Use ISO format: YYYY-MM-DDTHH:MM:SS[±HH:MM]"),
           ("input", Json.str "invalid-date-format")]])]⟩, [], false⟩ :=
  mw_unparsable_header_422_exact [("X-Mock-Date", "invalid-date-format")]
    "invalid-date-format" (echoNowCont 0 7) [] rfl (by decide) rfl

/-- C3 (code bug): the claim says a continuation's exception always
propagates unchanged and a 422 arises only from an unparsable header.  The
source's `try` block, however, also wraps `await call_next(request)`, so a
`ValueError` raised by the continuation under a perfectly valid header is
caught and converted into the "Invalid datetime format" 422 — here evaluated
at header `"2023-10-05T12:00:00+00:00"` with a `ValueError`-raising
continuation: the continuation runs, yet the middleware answers 422. -/
theorem mw_continuation_valueError_converted_to_422 :
    (mock_datetime_middleware [("X-Mock-Date", "2023-10-05T12:00:00+00:00")]
        (fun _ _ => .error .valueError) []).result
      = .ok ⟨422, errorBody "2023-10-05T12:00:00+00:00"⟩
    ∧ (mock_datetime_middleware [("X-Mock-Date", "2023-10-05T12:00:00+00:00")]
        (fun _ _ => .error .valueError) []).contInvoked = true
    ∧ (mock_datetime_middleware [("X-Mock-Date", "2023-10-05T12:00:00+00:00")]
        (fun _ _ => .error (.other 7)) []).result
      = .error (.other 7) :=
  ⟨rfl, rfl, rfl⟩

/-- C4: a successfully parsed header with no offset is made aware by
attaching a zero (UTC) offset, so downstream reads observe the corresponding
UTC instant; a header carrying an offset is used as given. -/
theorem mw_naive_header_utc_offset_kept (hs : Headers) (s : String) (dt : PyDatetime)
    (cont : Cont) (st : List Travel)
    (hget : headerGet hs xMockDate = some s) (hne : s ≠ "")
    (hp : fromisoformat s = some dt) :
    (dt.tzinfo = none →
      (mock_datetime_middleware hs cont st).clockOps
          = [.push ⟨{ dt with tzinfo := some 0 }, false⟩, .pop]
      ∧ ∀ startReal realNow,
          nowUTC [⟨{ dt with tzinfo := some 0 }, false⟩] startReal realNow
            = utcOf { dt with tzinfo := some 0 })
    ∧ ∀ off, dt.tzinfo = some off →
        (mock_datetime_middleware hs cont st).clockOps = [.push ⟨dt, false⟩, .pop] := by
  constructor
  · intro htz
    have he : ensureUTCAware dt = { dt with tzinfo := some 0 } := by
      simp [ensureUTCAware, htz]
    constructor
    · rw [mw_eq_of_parse_ok hs s dt cont st hget hne hp, he]
    · intro startReal realNow
      simp [nowUTC, nowEpochMicros, utcOf]
  · intro off htz
    have he : ensureUTCAware dt = dt := by
      simp [ensureUTCAware, htz]
    rw [mw_eq_of_parse_ok hs s dt cont st hget hne hp, he]

/-- Witness for C4: the naive header `"2023-10-05T12:00:00"` yields the
override instant with offset zero, and the aware header
`"2023-10-05T12:00:00+05:30"` keeps its offset. -/
theorem mw_naive_header_utc_offset_kept_witness :
    ((mock_datetime_middleware [("X-Mock-Date", "2023-10-05T12:00:00")]
        (echoNowCont 0 7) []).clockOps
      = [.push ⟨⟨2023, 10, 5, 12, 0, 0, 0, some 0⟩, false⟩, .pop])
    ∧ (mock_datetime_middleware [("X-Mock-Date", "2023-10-05T12:00:00+05:30")]
        (echoNowCont 0 7) []).clockOps
      = [.push ⟨⟨2023, 10, 5, 12, 0, 0, 0, some 19800⟩, false⟩, .pop] := by
  have h1 := mw_naive_header_utc_offset_kept [("X-Mock-Date", "2023-10-05T12:00:00")]
    "2023-10-05T12:00:00" ⟨2023, 10, 5, 12, 0, 0, 0, none⟩ (echoNowCont 0 7) []
    rfl (by decide) rfl
  have h2 := mw_naive_header_utc_offset_kept [("X-Mock-Date", "2023-10-05T12:00:00+05:30")]
    "2023-10-05T12:00:00+05:30" ⟨2023, 10, 5, 12, 0, 0, 0, some 19800⟩ (echoNowCont 0 7) []
    rfl (by decide) rfl
  exact ⟨(h1.1 rfl).1, h2.2 19800 rfl⟩

/-- C5: when the `X-Mock-Date` header is absent or empty, the middleware
invokes the continuation on the unmodified request and ambient override
stack, returns its outcome verbatim (responses and exceptions alike), and
performs no clock operation. -/
theorem mw_passthrough_absent_or_empty (hs : Headers) (cont : Cont) (st : List Travel)
    (h : headerGet hs xMockDate = none ∨ headerGet hs xMockDate = some "") :
    mock_datetime_middleware hs cont st = ⟨cont hs st, [], true⟩ := by
  cases h with
  | inl h => exact mw_eq_of_header_none hs cont st h
  | inr h => exact mw_eq_of_header_empty hs cont st h

/-- Witness for C5: a request with no headers, and one whose `X-Mock-Date`
value is the empty string, both pass straight through. -/
theorem mw_passthrough_absent_or_empty_witness :
    mock_datetime_middleware [] (echoNowCont 0 7) [] = ⟨echoNowCont 0 7 [] [], [], true⟩
    ∧ mock_datetime_middleware [("X-Mock-Date", "")] (echoNowCont 0 7) []
        = ⟨echoNowCont 0 7 [("X-Mock-Date", "")] [], [], true⟩ :=
  ⟨mw_passthrough_absent_or_empty [] (echoNowCont 0 7) [] (Or.inl rfl),
   mw_passthrough_absent_or_empty [("X-Mock-Date", "")] (echoNowCont 0 7) [] (Or.inr rfl)⟩

/-- C6: whenever a clock override is activated, its trace is exactly one
acquisition followed by one release — whatever the continuation does,
return or raise — and replaying the trace over the ambient override stack
leaves the stack unchanged: no override remains after the middleware
returns. -/
theorem mw_override_released_all_paths (hs : Headers) (s : String) (dt : PyDatetime)
    (cont : Cont) (st : List Travel)
    (hget : headerGet hs xMockDate = some s) (hne : s ≠ "")
    (hp : fromisoformat s = some dt) :
    (mock_datetime_middleware hs cont st).clockOps
        = [.push ⟨ensureUTCAware dt, false⟩, .pop]
    ∧ List.foldl applyOp st (mock_datetime_middleware hs cont st).clockOps = st := by
  rw [mw_eq_of_parse_ok hs s dt cont st hget hne hp]
  exact ⟨rfl, rfl⟩

/-- Witness for C6: the override is released both under a raising
continuation and under a normally returning one. -/
theorem mw_override_released_all_paths_witness :
    List.foldl applyOp []
        (mock_datetime_middleware [("X-Mock-Date", "2023-10-05T12:00:00")]
          (fun _ _ => .error (.other 7)) []).clockOps = []
    ∧ List.foldl applyOp []
        (mock_datetime_middleware [("X-Mock-Date", "2023-10-05T12:00:00")]
          (echoNowCont 0 7) []).clockOps = [] := by
  have h1 := mw_override_released_all_paths [("X-Mock-Date", "2023-10-05T12:00:00")]
    "2023-10-05T12:00:00" ⟨2023, 10, 5, 12, 0, 0, 0, none⟩
    (fun _ _ => .error (.other 7)) [] rfl (by decide) rfl
  have h2 := mw_override_released_all_paths [("X-Mock-Date", "2023-10-05T12:00:00")]
    "2023-10-05T12:00:00" ⟨2023, 10, 5, 12, 0, 0, 0, none⟩
    (echoNowCont 0 7) [] rfl (by decide) rfl
  exact ⟨h1.2, h2.2⟩

/-- C7: header lookup is case-insensitive — two requests whose header lists
agree up to the letter case of header names produce the same
`X-Mock-Date` lookup, and (for any continuation whose own behaviour does not
depend on the raw header list) the same middleware output. -/
theorem mw_header_name_case_insensitive (hs hs' : Headers)
    (hcase : List.Forall₂ (fun p q => lowerName p.1 = lowerName q.1 ∧ p.2 = q.2) hs hs') :
    headerGet hs xMockDate = headerGet hs' xMockDate
    ∧ ∀ (cont : Cont) (st : List Travel), (∀ a b : Headers, cont a = cont b) →
        mock_datetime_middleware hs cont st = mock_datetime_middleware hs' cont st := by
  have hg := headerGet_congr_of_case_eq hs hs' xMockDate hcase
  refine ⟨hg, fun cont st hc => ?_⟩
  unfold mock_datetime_middleware
  rw [hg, hc hs hs']

/-- Witness for C7: `x-mock-date` and `X-MOCK-DATE` are treated
identically. -/
theorem mw_header_name_case_insensitive_witness :
    headerGet [("x-mock-date", "2023-10-05")] xMockDate
        = headerGet [("X-MOCK-DATE", "2023-10-05")] xMockDate
    ∧ mock_datetime_middleware [("x-mock-date", "2023-10-05")]
          (fun _ _ => .ok ⟨200, Json.str "ok"⟩) []
        = mock_datetime_middleware [("X-MOCK-DATE", "2023-10-05")]
          (fun _ _ => .ok ⟨200, Json.str "ok"⟩) [] := by
  have h := mw_header_name_case_insensitive [("x-mock-date", "2023-10-05")]
    [("X-MOCK-DATE", "2023-10-05")] (List.Forall₂.cons ⟨rfl, rfl⟩ List.Forall₂.nil)
  exact ⟨h.1, h.2 (fun _ _ => .ok ⟨200, Json.str "ok"⟩) [] (fun _ _ => rfl)⟩

/-- C9: the date-only header `"2023-10-05"` is accepted, not rejected with a
422: it parses as naive midnight of that date and the middleware freezes the
clock at that date's midnight UTC (even though the 422 message advertises
`YYYY-MM-DDTHH:MM:SS[±HH:MM]`). -/
theorem mw_date_only_header_accepted :
    fromisoformat "2023-10-05" = some ⟨2023, 10, 5, 0, 0, 0, 0, none⟩
    ∧ mock_datetime_middleware [("X-Mock-Date", "2023-10-05")] (echoNowCont 0 7) []
        = ⟨.ok ⟨200, .obj [("current_time", .str "2023-10-05T00:00:00+00:00")]⟩,
           [.push ⟨⟨2023, 10, 5, 0, 0, 0, 0, some 0⟩, false⟩, .pop], true⟩ :=
  ⟨rfl, rfl⟩

/-- C10: a whitespace-only header value such as `" "` is present rather than
empty: it is not passed through, fails parsing, and yields the 422 with the
whitespace echoed in `input` — while the exactly-empty value `""` takes the
pass-through branch. -/
theorem mw_whitespace_header_not_passthrough :
    mock_datetime_middleware [("X-Mock-Date", " ")] (echoNowCont 0 7) []
      = ⟨.ok ⟨422, Json.obj [("detail", Json.arr [Json.obj
          [("type", Json.str "value_error"),
           ("loc", Json.arr [Json.str "header", Json.str "x-mock-date"]),
           ("msg", Json.str "Invalid datetime format. Use ISO format: YYYY-MM-DDTHH:MM:SS[±HH:MM]"),
           ("input", Json.str " ")]])]⟩, [], false⟩
    ∧ mock_datetime_middleware [("X-Mock-Date", "")] (echoNowCont 0 7) []
        = ⟨echoNowCont 0 7 [("X-Mock-Date", "")] [], [], true⟩ :=
  ⟨rfl, rfl⟩

end FastapiMockDatetime
